import Mathlib

/-!
Shallow embedding of the vector3d expression-template library
(src/vector3d.h of milianw/vector3d).

The library is a CRTP expression-template system: concrete storage
`Vector3D<S>` plus lazy nodes (`Vector3D_SumExpr`, `Vector3D_DiffExpr`,
`Vector3D_NegateExpr`, `Vector3D_MultExpr`, `Vector3D_DivExpr`,
`Vector3D_CrossExpr`) whose `x()/y()/z()` accessors recompute on demand.
Here an expression tree is an inductive `Expr` whose leaves are concrete
vectors; the accessor of a node is translated literally from the member
functions of the corresponding class.  Scalars are modelled by an
arbitrary field (the C++ code instantiates `S = double`; `norm` uses the
real square root, so norm-related claims are stated over the reals).
-/

/-- The concrete storage type `Vector3D<S>` (src/vector3d.h lines 106-255):
three scalar fields `m_x`, `m_y`, `m_z`. -/
structure Vector3D (α : Type) where
  m_x : α
  m_y : α
  m_z : α
  deriving DecidableEq

/-- The three component axes of a vector expression. -/
inductive Axis : Type where
  | x
  | y
  | z
  deriving DecidableEq

/-- Read accessor of the concrete vector (src/vector3d.h lines 216-227):
`x()/y()/z()` return the stored fields. -/
def Vector3D.get {α : Type} (v : Vector3D α) : Axis → α
  | Axis.x => v.m_x
  | Axis.y => v.m_y
  | Axis.z => v.m_z

/-- Expression trees of the template library.  A leaf is a concrete
`Vector3D` (its `Nat` tag identifies which operand it is, used only to
count accessor reads); the remaining constructors are the expression node
classes: `sumE` is `Vector3D_SumExpr` (lines 280-303), `diffE` is
`Vector3D_DiffExpr` (lines 317-340), `negE` is `Vector3D_NegateExpr`
(lines 355-376), `multE` is `Vector3D_MultExpr` (lines 390-413), `divE`
is `Vector3D_DivExpr` (lines 436-459), `crossE` is `Vector3D_CrossExpr`
(lines 473-496). -/
inductive Expr (α : Type) : Type where
  | leaf (id : Nat) (v : Vector3D α)
  | sumE (l r : Expr α)
  | diffE (l r : Expr α)
  | negE (e : Expr α)
  | multE (e : Expr α) (s : α)
  | divE (e : Expr α) (s : α)
  | crossE (l r : Expr α)

/-- Component evaluation of an expression tree: the `x()/y()/z()` member
of each node, translated clause by clause from the source.
Sum: `m_l.c() + m_r.c()`; difference: `m_l.c() - m_r.c()`;
negation node: `-m_vec.c()`; scalar multiply: `m_vec.c() * m_s`;
scalar divide: `m_vec.c() / m_s`; cross product (lines 481-492):
`x = a.y*b.z - b.y*a.z`, `y = a.z*b.x - b.z*a.x`, `z = a.x*b.y - b.x*a.y`. -/
def evalAx {α : Type} [Field α] : Expr α → Axis → α
  | Expr.leaf _ v, ax => v.get ax
  | Expr.sumE l r, ax => evalAx l ax + evalAx r ax
  | Expr.diffE l r, ax => evalAx l ax - evalAx r ax
  | Expr.negE e, ax => -(evalAx e ax)
  | Expr.multE e s, ax => evalAx e ax * s
  | Expr.divE e s, ax => evalAx e ax / s
  | Expr.crossE l r, Axis.x =>
      evalAx l Axis.y * evalAx r Axis.z - evalAx r Axis.y * evalAx l Axis.z
  | Expr.crossE l r, Axis.y =>
      evalAx l Axis.z * evalAx r Axis.x - evalAx r Axis.z * evalAx l Axis.x
  | Expr.crossE l r, Axis.z =>
      evalAx l Axis.x * evalAx r Axis.y - evalAx r Axis.x * evalAx l Axis.y

/-- `Vector3D_Expr::dot` (src/vector3d.h lines 72-78):
`x()*v.x() + y()*v.y() + z()*v.z()`. -/
def dotE {α : Type} [Field α] (e1 e2 : Expr α) : α :=
  evalAx e1 Axis.x * evalAx e2 Axis.x
    + evalAx e1 Axis.y * evalAx e2 Axis.y
    + evalAx e1 Axis.z * evalAx e2 Axis.z

/-- `Vector3D_Expr::squaredNorm` (lines 89-92): `dot(*this)`. -/
def squaredNormE {α : Type} [Field α] (e : Expr α) : α := dotE e e

/-- `Vector3D_Expr::norm` (lines 97-100): `std::sqrt(squaredNorm())`,
over the reals since the library instantiates floating-point scalars. -/
noncomputable def normE (e : Expr ℝ) : ℝ := Real.sqrt (squaredNormE e)

/-- The expression constructor of the concrete vector (lines 137-141):
`m_x(vector.x()), m_y(vector.y()), m_z(vector.z())` — each component of
the expression is read exactly once and stored. -/
def fromExpr {α : Type} [Field α] (e : Expr α) : Vector3D α :=
  ⟨evalAx e Axis.x, evalAx e Axis.y, evalAx e Axis.z⟩

/-- The sequence of leaf accessor reads `(operand id, axis)` performed
while evaluating one component of an expression, mirroring `evalAx`
clause by clause (within one arithmetic expression the C++ evaluation
order of operands is unspecified; the claims below use only how OFTEN
each read occurs, which is order-independent). -/
def leafReads {α : Type} : Expr α → Axis → List (Nat × Axis)
  | Expr.leaf i _, ax => [(i, ax)]
  | Expr.sumE l r, ax => leafReads l ax ++ leafReads r ax
  | Expr.diffE l r, ax => leafReads l ax ++ leafReads r ax
  | Expr.negE e, ax => leafReads e ax
  | Expr.multE e _, ax => leafReads e ax
  | Expr.divE e _, ax => leafReads e ax
  | Expr.crossE l r, Axis.x =>
      leafReads l Axis.y ++ leafReads r Axis.z ++ leafReads r Axis.y ++ leafReads l Axis.z
  | Expr.crossE l r, Axis.y =>
      leafReads l Axis.z ++ leafReads r Axis.x ++ leafReads r Axis.z ++ leafReads l Axis.x
  | Expr.crossE l r, Axis.z =>
      leafReads l Axis.x ++ leafReads r Axis.y ++ leafReads r Axis.x ++ leafReads l Axis.y

/-- All leaf reads performed by the expression constructor of `Vector3D`
(lines 137-141), which evaluates `vector.x()`, then `vector.y()`, then
`vector.z()`, once each, in member declaration order. -/
def ctorReads {α : Type} (e : Expr α) : List (Nat × Axis) :=
  leafReads e Axis.x ++ leafReads e Axis.y ++ leafReads e Axis.z

/-- `Vector3D::operator+=` (lines 167-174): the three statements
`m_x += vector.x(); m_y += vector.y(); m_z += vector.z();` executed in
order.  The right-hand side is a C++ reference, so each `vector.c()`
read observes the CURRENT state of the referenced object; `rhs` is
therefore a function of the evolving state, which models aliasing
faithfully (`rhs = fun s => s` is the self-aliased call `v += v`,
`rhs = fun _ => w` a call on an unrelated vector `w`). -/
def opPlusEq {α : Type} [Add α] (v : Vector3D α) (rhs : Vector3D α → Vector3D α) :
    Vector3D α :=
  let v1 : Vector3D α := { v with m_x := v.m_x + (rhs v).m_x }
  let v2 : Vector3D α := { v1 with m_y := v1.m_y + (rhs v1).m_y }
  { v2 with m_z := v2.m_z + (rhs v2).m_z }

/-- The norm of a concrete vector: the CRTP base class member `norm()`
applied to the concrete vector itself. -/
noncomputable def normV (v : Vector3D ℝ) : ℝ := normE (Expr.leaf 0 v)

/-- `Vector3D::normalized` (lines 245-249):
`const S n = this->norm(); return Vector3D<S>(m_x / n, m_y / n, m_z / n);`.
The method is `const`: it builds a new vector and does not touch `this`,
which the embedding reflects by taking `v` as a plain value. -/
noncomputable def normalized (v : Vector3D ℝ) : Vector3D ℝ :=
  let n : ℝ := normV v
  ⟨v.m_x / n, v.m_y / n, v.m_z / n⟩

/-- The free unary `operator-` (src/vector3d.h lines 381-385).  Its body
is `return Vector3D_NegateExpr<S, E>(v);`, but the parameter is named
`vector` and no `v` is declared anywhere in the header: the body names
an out-of-scope identifier.  The embedding makes the stray name an extra
input `v`, so the function builds the negation node around `v` and
ignores its actual parameter, exactly as the source text does. -/
def operatorNeg {α : Type} (v : Expr α) (_vector : Expr α) : Expr α :=
  Expr.negE v

/-!
Text input/output (src/vector3d.h lines 260-275).  A stream is a list of
characters; a scalar is rendered/parsed by a caller-supplied codec,
abstracting the host text representation of the scalar type (`operator<<`
and `operator>>` delegate the per-scalar conversion to the iostream
library; the vector code itself fixes only the framing: three tokens,
single space separators, order x y z).
-/

/-- Whitespace, per the host stream extraction convention (token
separators skipped by `operator>>`). -/
def isSpaceCh (c : Char) : Bool :=
  c == ' ' || c == '\t' || c == '\n' || c == '\r'

/-- Skip leading whitespace, as each formatted extraction does. -/
def skipWs (cs : List Char) : List Char := cs.dropWhile isSpaceCh

/-- Split off the next whitespace-delimited token of the stream. -/
def nextToken (cs : List Char) : List Char × List Char :=
  ((skipWs cs).takeWhile (fun c => !isSpaceCh c),
    (skipWs cs).dropWhile (fun c => !isSpaceCh c))

/-- Outcome of one formatted scalar extraction `stream >> s`.  The host
stream distinguishes two failure modes: `eofFail` when the sentry finds
no token at all (end of input after skipping whitespace) — the
destination is not touched; `convFail` when a token is present but the
numeric conversion rejects it — since C++11 (which this header requires
through `constexpr` and `noexcept`) `num_get` then STORES ZERO into the
destination before setting `failbit`. -/
inductive ReadResult (α : Type) : Type where
  | ok (s : α) (rest : List Char)
  | eofFail
  | convFail
  deriving DecidableEq

/-- One formatted scalar extraction `stream >> s`: skip whitespace, take
the next whitespace-delimited token, parse it with the scalar codec. -/
def readScalar {α : Type} (parse : List Char → Option α) (cs : List Char) :
    ReadResult α :=
  if (nextToken cs).1.isEmpty then ReadResult.eofFail
  else
    match parse (nextToken cs).1 with
    | some s => ReadResult.ok s (nextToken cs).2
    | none => ReadResult.convFail

/-- `operator<<` (lines 260-265):
`stream << vector.x() << ' ' << vector.y() << ' ' << vector.z()` —
three components in order x, y, z, single space separators, no trailing
separator. -/
def operatorOut {α : Type} (render : α → List Char) (v : Vector3D α) : List Char :=
  render v.m_x ++ [' '] ++ render v.m_y ++ [' '] ++ render v.m_z

/-- One chained extraction into a writable component reference: a no-op
when the stream is already in the failed state (`failbit` semantics);
otherwise it assigns the parsed scalar, or on failure marks the stream
failed and — per the C++11 formatted-extraction semantics — leaves the
destination untouched only when the sentry found no token, while a
failed numeric conversion stores zero into it. -/
def extractInto {α : Type} [Zero α] (parse : List Char → Option α)
    (st : List Char × Bool) (dst : α) : (List Char × Bool) × α :=
  if st.2 then (st, dst)
  else
    match readScalar parse st.1 with
    | ReadResult.ok s rest => ((rest, false), s)
    | ReadResult.eofFail => ((st.1, true), dst)
    | ReadResult.convFail => ((st.1, true), (0 : α))

/-- `operator>>` (lines 270-275):
`stream >> vector.x() >> vector.y() >> vector.z()` — three chained
extractions through the mutable accessors, strictly in order x, y, z.
Returns the final stream state (remaining characters, failed flag) and
the final vector. -/
def operatorIn {α : Type} [Zero α] (parse : List Char → Option α) (cs : List Char)
    (v : Vector3D α) : (List Char × Bool) × Vector3D α :=
  let r1 := extractInto parse (cs, false) v.m_x
  let r2 := extractInto parse r1.1 v.m_y
  let r3 := extractInto parse r2.1 v.m_z
  (r3.1, ⟨r1.2, r2.2, r3.2⟩)

/-- A concrete scalar codec used to instantiate the round-trip and
partial-read theorems: the three values of `Fin 3` rendered as the
digits 0, 1, 2 (a scalar type with a zero, as the host extraction
semantics requires). -/
def finRender (s : Fin 3) : List Char :=
  if s = 0 then ['0'] else if s = 1 then ['1'] else ['2']

/-- Parse for `finRender`: accepts exactly the three rendered tokens. -/
def finParse : List Char → Option (Fin 3)
  | ['0'] => some 0
  | ['1'] => some 1
  | ['2'] => some 2
  | _ => none

/-- The chained expression of concrete scenario 4, `a + b * 2.0 - c`,
built by the operator surface: `operator+` returns `Vector3D_SumExpr`,
`operator*` returns `Vector3D_MultExpr`, binary `operator-` returns
`Vector3D_DiffExpr`, with C++ precedence grouping it as
`(a + (b * 2)) - c`.  Leaves are tagged 0, 1, 2 for a, b, c. -/
def chainedExpr {α : Type} [Field α] (a b c : Vector3D α) : Expr α :=
  Expr.diffE (Expr.sumE (Expr.leaf 0 a) (Expr.multE (Expr.leaf 1 b) 2)) (Expr.leaf 2 c)

/-- Claim C1: constructing a concrete `Vector3D` from the chained lazy
expression `a + b * 2.0 - c` stores exactly the eagerly computed
per-component values, and during construction every component accessor
of each of the three operands is read exactly once: the read trace is
precisely one `(operand, axis)` pair per operand per axis. -/
theorem vector3d_chained_expr_assign {α : Type} [Field α] (a b c : Vector3D α) :
    fromExpr (chainedExpr a b c) =
      ⟨a.m_x + b.m_x * 2 - c.m_x, a.m_y + b.m_y * 2 - c.m_y, a.m_z + b.m_z * 2 - c.m_z⟩ ∧
    ctorReads (chainedExpr a b c) =
      [(0, Axis.x), (1, Axis.x), (2, Axis.x),
       (0, Axis.y), (1, Axis.y), (2, Axis.y),
       (0, Axis.z), (1, Axis.z), (2, Axis.z)] :=
  ⟨rfl, rfl⟩

/-- Claim C2: for the concrete inputs `Vector3D(1,2,3)` and
`Vector3D(4,5,6)`, the sum evaluates to `(5,7,9)`, the difference to
`(-3,-3,-3)`, the dot product to the scalar `32`, and the cross product
to `(-3,6,-3)`. -/
theorem vector3d_concrete_arith_scenario :
    fromExpr (Expr.sumE (Expr.leaf 0 (⟨1, 2, 3⟩ : Vector3D ℚ)) (Expr.leaf 1 ⟨4, 5, 6⟩)) =
      ⟨5, 7, 9⟩ ∧
    fromExpr (Expr.diffE (Expr.leaf 0 (⟨1, 2, 3⟩ : Vector3D ℚ)) (Expr.leaf 1 ⟨4, 5, 6⟩)) =
      ⟨-3, -3, -3⟩ ∧
    dotE (Expr.leaf 0 (⟨1, 2, 3⟩ : Vector3D ℚ)) (Expr.leaf 1 ⟨4, 5, 6⟩) = 32 ∧
    fromExpr (Expr.crossE (Expr.leaf 0 (⟨1, 2, 3⟩ : Vector3D ℚ)) (Expr.leaf 1 ⟨4, 5, 6⟩)) =
      ⟨-3, 6, -3⟩ := by
  refine ⟨?_, ?_, ?_, ?_⟩ <;>
    norm_num [fromExpr, evalAx, dotE, Vector3D.get, Vector3D.mk.injEq]

/-- Claim C7: the cross product is anti-commutative — every component of
`a.cross(b)` equals the corresponding component of the negation node
applied to `b.cross(a)`. -/
theorem vector3d_cross_anticomm {α : Type} [Field α] (a b : Vector3D α) (ax : Axis) :
    evalAx (Expr.crossE (Expr.leaf 0 a) (Expr.leaf 1 b)) ax =
      evalAx (Expr.negE (Expr.crossE (Expr.leaf 1 b) (Expr.leaf 0 a))) ax := by
  cases ax <;> simp [evalAx, Vector3D.get]

/-- Claim C9: the self-aliased compound addition `v += v` produces twice
the original vector, and its result coincides with the unaliased
accumulation of a snapshot of `v` — each in-place update reads only the
same component of the aliased right-hand side, which is overwritten only
after it is read. -/
theorem vector3d_self_aliased_add {α : Type} [Field α] (v : Vector3D α) :
    opPlusEq v (fun s => s) = ⟨2 * v.m_x, 2 * v.m_y, 2 * v.m_z⟩ ∧
    opPlusEq v (fun s => s) = opPlusEq v (fun _ => v) := by
  refine ⟨?_, rfl⟩
  simp only [opPlusEq, Vector3D.mk.injEq]
  refine ⟨by ring, by ring, by ring⟩

/-- Claim C6: for every vector expression over a real scalar type,
`squaredNorm()` is the sum of the three squares `x*x + y*y + z*z` and
hence non-negative, so the square root inside `norm()` never receives a
negative argument (and, `Real.sqrt` being total on non-negative inputs,
`norm()` signals no domain error). -/
theorem vector3d_squaredNorm_nonneg (e : Expr ℝ) :
    squaredNormE e =
      evalAx e Axis.x * evalAx e Axis.x
        + evalAx e Axis.y * evalAx e Axis.y
        + evalAx e Axis.z * evalAx e Axis.z ∧
    0 ≤ squaredNormE e ∧
    normE e = Real.sqrt (squaredNormE e) := by
  refine ⟨rfl, ?_, rfl⟩
  exact add_nonneg (add_nonneg (mul_self_nonneg _) (mul_self_nonneg _)) (mul_self_nonneg _)

/-- Claim C5: for every concrete vector with non-zero norm,
`normalized()` returns a new concrete vector whose components are the
components of `v` each divided by `v.norm()` — i.e. exactly the vector
obtained by forcing the scalar-division expression `v / v.norm()` — and,
the method being `const` (the embedding takes `v` by value and returns a
fresh vector), `v` itself is left unchanged. -/
theorem vector3d_normalized_div_norm (v : Vector3D ℝ) (_h : normV v ≠ 0) :
    normalized v = fromExpr (Expr.divE (Expr.leaf 0 v) (normV v)) ∧
    normalized v = ⟨v.m_x / normV v, v.m_y / normV v, v.m_z / normV v⟩ :=
  ⟨rfl, rfl⟩

/-- Witness for C5 at the concrete vector `(3, 4, 0)`, whose norm is
`Real.sqrt 25 = 5 ≠ 0`. -/
theorem vector3d_normalized_div_norm_witness :
    normV (⟨3, 4, 0⟩ : Vector3D ℝ) ≠ 0 ∧
    (normalized (⟨3, 4, 0⟩ : Vector3D ℝ) =
        fromExpr (Expr.divE (Expr.leaf 0 (⟨3, 4, 0⟩ : Vector3D ℝ))
          (normV (⟨3, 4, 0⟩ : Vector3D ℝ))) ∧
      normalized (⟨3, 4, 0⟩ : Vector3D ℝ) =
        ⟨3 / normV (⟨3, 4, 0⟩ : Vector3D ℝ), 4 / normV (⟨3, 4, 0⟩ : Vector3D ℝ),
          0 / normV (⟨3, 4, 0⟩ : Vector3D ℝ)⟩) :=
  have h : normV (⟨3, 4, 0⟩ : Vector3D ℝ) ≠ 0 := by
    have h25 : squaredNormE (Expr.leaf 0 (⟨3, 4, 0⟩ : Vector3D ℝ)) = 25 := by
      norm_num [squaredNormE, dotE, evalAx, Vector3D.get]
    have hpos : (0 : ℝ) < Real.sqrt 25 := Real.sqrt_pos.mpr (by norm_num)
    simp only [normV, normE, h25]
    exact ne_of_gt hpos
  ⟨h, vector3d_normalized_div_norm ⟨3, 4, 0⟩ h⟩

/-- Claim C3 is a code bug: the free unary `operator-`
(src/vector3d.h line 384) constructs the negation node from the
undeclared name `v` instead of its parameter `vector`.  Modelling the
stray name as an extra input: when the name `v` denotes anything other
than the operand actually passed, the components of the result are the
negation of that other object, not of the parameter — here negating the
parameter `(1,2,3)` should give `(-1,-2,-3)`, but the code yields
`(0,0,0)`, the negation of an unrelated zero vector bound to `v`. -/
theorem vector3d_negate_ignores_parameter :
    fromExpr (operatorNeg (Expr.leaf 0 (⟨0, 0, 0⟩ : Vector3D ℚ))
        (Expr.leaf 1 (⟨1, 2, 3⟩ : Vector3D ℚ))) = ⟨0, 0, 0⟩ ∧
    (⟨0, 0, 0⟩ : Vector3D ℚ) ≠
      ⟨-(1 : ℚ), -(2 : ℚ), -(3 : ℚ)⟩ := by
  refine ⟨?_, ?_⟩ <;>
    norm_num [fromExpr, operatorNeg, evalAx, Vector3D.get, Vector3D.mk.injEq]

/-- A nonempty list is not `isEmpty`. -/
theorem isEmpty_false_of_ne_nil {β : Type} (t : List β) (h : t ≠ []) :
    t.isEmpty = false := by
  cases t with
  | nil => exact absurd rfl h
  | cons a l => rfl

/-- Taking non-whitespace characters from a clean token followed by a
space yields exactly the token. -/
theorem takeWhile_clean_append (t rest : List Char)
    (hcl : ∀ c ∈ t, isSpaceCh c = false) :
    (t ++ ' ' :: rest).takeWhile (fun c => !isSpaceCh c) = t := by
  induction t with
  | nil => simp [List.takeWhile_cons, isSpaceCh]
  | cons c t ih =>
      have hc : isSpaceCh c = false := hcl c (List.mem_cons_self c t)
      simp [List.takeWhile_cons, hc,
        ih (fun d hd => hcl d (List.mem_cons_of_mem c hd))]

/-- Dropping non-whitespace characters from a clean token followed by a
space yields the space and the remainder. -/
theorem dropWhile_clean_append (t rest : List Char)
    (hcl : ∀ c ∈ t, isSpaceCh c = false) :
    (t ++ ' ' :: rest).dropWhile (fun c => !isSpaceCh c) = ' ' :: rest := by
  induction t with
  | nil => simp [List.dropWhile_cons, isSpaceCh]
  | cons c t ih =>
      have hc : isSpaceCh c = false := hcl c (List.mem_cons_self c t)
      simp [List.dropWhile_cons, hc,
        ih (fun d hd => hcl d (List.mem_cons_of_mem c hd))]

/-- A clean token at end of stream is taken whole. -/
theorem takeWhile_clean_all (t : List Char)
    (hcl : ∀ c ∈ t, isSpaceCh c = false) :
    t.takeWhile (fun c => !isSpaceCh c) = t := by
  induction t with
  | nil => rfl
  | cons c t ih =>
      have hc : isSpaceCh c = false := hcl c (List.mem_cons_self c t)
      simp [List.takeWhile_cons, hc,
        ih (fun d hd => hcl d (List.mem_cons_of_mem c hd))]

/-- Nothing follows a clean token at end of stream. -/
theorem dropWhile_clean_all (t : List Char)
    (hcl : ∀ c ∈ t, isSpaceCh c = false) :
    t.dropWhile (fun c => !isSpaceCh c) = [] := by
  induction t with
  | nil => rfl
  | cons c t ih =>
      have hc : isSpaceCh c = false := hcl c (List.mem_cons_self c t)
      simp [List.dropWhile_cons, hc,
        ih (fun d hd => hcl d (List.mem_cons_of_mem c hd))]

/-- Skipping whitespace leaves a stream whose head is not whitespace
unchanged. -/
theorem skipWs_of_clean_head (t u : List Char) (hne : t ≠ [])
    (hcl : ∀ c ∈ t, isSpaceCh c = false) :
    skipWs (t ++ u) = t ++ u := by
  cases t with
  | nil => exact absurd rfl hne
  | cons c t =>
      have hc : isSpaceCh c = false := hcl c (List.mem_cons_self c t)
      simp [skipWs, List.dropWhile_cons, hc]

/-- Skipping whitespace consumes a leading space. -/
theorem skipWs_space (cs : List Char) : skipWs (' ' :: cs) = skipWs cs := by
  simp [skipWs, List.dropWhile_cons, isSpaceCh]

/-- Tokenizing a clean token followed by a space separator. -/
theorem nextToken_clean_mid (t rest : List Char) (hne : t ≠ [])
    (hcl : ∀ c ∈ t, isSpaceCh c = false) :
    nextToken (t ++ ' ' :: rest) = (t, ' ' :: rest) := by
  unfold nextToken
  rw [show skipWs (t ++ ' ' :: rest) = t ++ ' ' :: rest from
       skipWs_of_clean_head t (' ' :: rest) hne hcl,
     takeWhile_clean_append t rest hcl, dropWhile_clean_append t rest hcl]

/-- Tokenizing a clean token at end of stream. -/
theorem nextToken_clean_end (t : List Char) (hne : t ≠ [])
    (hcl : ∀ c ∈ t, isSpaceCh c = false) :
    nextToken t = (t, []) := by
  unfold nextToken
  rw [show skipWs t = t by
        have := skipWs_of_clean_head t [] hne hcl
        simpa using this,
     takeWhile_clean_all t hcl, dropWhile_clean_all t hcl]

/-- A leading space is skipped by a formatted extraction. -/
theorem readScalar_space {α : Type} (parse : List Char → Option α) (cs : List Char) :
    readScalar parse (' ' :: cs) = readScalar parse cs := by
  unfold readScalar nextToken
  rw [skipWs_space]

/-- Extracting a clean, parseable token followed by a space separator. -/
theorem readScalar_clean_mid {α : Type} (parse : List Char → Option α)
    (t rest : List Char) (hne : t ≠ []) (hcl : ∀ c ∈ t, isSpaceCh c = false)
    (s : α) (hp : parse t = some s) :
    readScalar parse (t ++ ' ' :: rest) = ReadResult.ok s (' ' :: rest) := by
  unfold readScalar
  rw [nextToken_clean_mid t rest hne hcl]
  simp [isEmpty_false_of_ne_nil t hne, hp]

/-- Extracting a clean, parseable token at end of stream. -/
theorem readScalar_clean_end {α : Type} (parse : List Char → Option α)
    (t : List Char) (hne : t ≠ []) (hcl : ∀ c ∈ t, isSpaceCh c = false)
    (s : α) (hp : parse t = some s) :
    readScalar parse t = ReadResult.ok s [] := by
  unfold readScalar
  rw [nextToken_clean_end t hne hcl]
  simp [isEmpty_false_of_ne_nil t hne, hp]

/-- Claim C8: writing a concrete vector to text (components x, y, z as
text separated by single spaces, no trailing separator) and reading the
text back into a fresh concrete vector of the same scalar type yields a
vector exactly equal to the original, the stream ending fully consumed
and not failed.  The scalar codec is any faithful host text
representation: rendered tokens are nonempty, contain no whitespace, and
parse back to the rendered scalar. -/
theorem vector3d_text_roundtrip {α : Type} [Zero α] (render : α → List Char)
    (parse : List Char → Option α)
    (hne : ∀ s, render s ≠ [])
    (hcl : ∀ s, ∀ c ∈ render s, isSpaceCh c = false)
    (hinv : ∀ s, parse (render s) = some s)
    (v w : Vector3D α) :
    operatorIn parse (operatorOut render v) w = (([], false), v) := by
  have hout : operatorOut render v =
      render v.m_x ++ ' ' :: (render v.m_y ++ ' ' :: render v.m_z) := by
    simp [operatorOut]
  have h1 : readScalar parse (operatorOut render v) =
      ReadResult.ok v.m_x (' ' :: (render v.m_y ++ ' ' :: render v.m_z)) := by
    rw [hout]
    exact readScalar_clean_mid parse _ _ (hne v.m_x) (hcl v.m_x) _ (hinv v.m_x)
  have h2 : readScalar parse (' ' :: (render v.m_y ++ ' ' :: render v.m_z)) =
      ReadResult.ok v.m_y (' ' :: render v.m_z) := by
    rw [readScalar_space]
    exact readScalar_clean_mid parse _ _ (hne v.m_y) (hcl v.m_y) _ (hinv v.m_y)
  have h3 : readScalar parse (' ' :: render v.m_z) = ReadResult.ok v.m_z [] := by
    rw [readScalar_space]
    exact readScalar_clean_end parse _ (hne v.m_z) (hcl v.m_z) _ (hinv v.m_z)
  simp [operatorIn, extractInto, h1, h2, h3]

/-- Witness for C8 with the digit codec on `Fin 3`: the vector
`(1, 0, 2)` written as the text `1 0 2` reads back equal to itself. -/
theorem vector3d_text_roundtrip_witness :
    (∀ s, finRender s ≠ []) ∧
    (∀ s, ∀ c ∈ finRender s, isSpaceCh c = false) ∧
    (∀ s, finParse (finRender s) = some s) ∧
    operatorIn finParse (operatorOut finRender ⟨1, 0, 2⟩)
        ⟨0, 0, 0⟩ = (([], false), ⟨1, 0, 2⟩) :=
  ⟨by decide, by decide, by decide,
    vector3d_text_roundtrip finRender finParse (by decide) (by decide) (by decide)
      ⟨1, 0, 2⟩ ⟨0, 0, 0⟩⟩

/-- Counterexample to claim C10 as stated: reading the text `1 x` into
the vector `(2, 2, 2)` fails after k = 1 successful token, yet the
remaining y component does NOT keep its previous value 2 — the failed
numeric conversion of the token `x` stores zero into it (the C++11
formatted-extraction semantics this header requires), giving
`(1, 0, 2)`. -/
theorem vector3d_partial_read_counterexample :
    operatorIn finParse ['1', ' ', 'x'] (⟨2, 2, 2⟩ : Vector3D (Fin 3)) =
      (([' ', 'x'], true), ⟨1, 0, 2⟩) ∧
    (operatorIn finParse ['1', ' ', 'x'] (⟨2, 2, 2⟩ : Vector3D (Fin 3))).2.m_y ≠
      (⟨2, 2, 2⟩ : Vector3D (Fin 3)).m_y := by
  decide

/-- Claim C10 (amended): textual input is not atomic — the three tokens
are extracted and assigned strictly in the order x, then y, then z
through writable component references, so if the source fails after k
successful tokens (k = 0, 1, 2) the first k components of the
destination hold the parsed values, the component at which the
extraction failed is overwritten with zero when the failure is a
numeric-conversion failure on a present token (per C++11) but keeps its
previous value when the source is simply exhausted, and all components
after the failing one keep their previous values; the stream is left in
the failed state. -/
theorem vector3d_partial_read {α : Type} [Zero α] (parse : List Char → Option α)
    (cs : List Char) (v : Vector3D α) :
    (readScalar parse cs = ReadResult.eofFail →
      operatorIn parse cs v = ((cs, true), v)) ∧
    (readScalar parse cs = ReadResult.convFail →
      operatorIn parse cs v = ((cs, true), ⟨0, v.m_y, v.m_z⟩)) ∧
    (∀ s1 cs1, readScalar parse cs = ReadResult.ok s1 cs1 →
      readScalar parse cs1 = ReadResult.eofFail →
      operatorIn parse cs v = ((cs1, true), ⟨s1, v.m_y, v.m_z⟩)) ∧
    (∀ s1 cs1, readScalar parse cs = ReadResult.ok s1 cs1 →
      readScalar parse cs1 = ReadResult.convFail →
      operatorIn parse cs v = ((cs1, true), ⟨s1, 0, v.m_z⟩)) ∧
    (∀ s1 cs1 s2 cs2, readScalar parse cs = ReadResult.ok s1 cs1 →
      readScalar parse cs1 = ReadResult.ok s2 cs2 →
      readScalar parse cs2 = ReadResult.eofFail →
      operatorIn parse cs v = ((cs2, true), ⟨s1, s2, v.m_z⟩)) ∧
    (∀ s1 cs1 s2 cs2, readScalar parse cs = ReadResult.ok s1 cs1 →
      readScalar parse cs1 = ReadResult.ok s2 cs2 →
      readScalar parse cs2 = ReadResult.convFail →
      operatorIn parse cs v = ((cs2, true), ⟨s1, s2, 0⟩)) := by
  refine ⟨fun h1 => ?_, fun h1 => ?_, fun s1 cs1 h1 h2 => ?_, fun s1 cs1 h1 h2 => ?_,
      fun s1 cs1 s2 cs2 h1 h2 h3 => ?_, fun s1 cs1 s2 cs2 h1 h2 h3 => ?_⟩ <;>
    simp [operatorIn, extractInto, h1, *]

/-- Witness for the amended C10 with the digit codec on `Fin 3`:
reading the text `1 x` into `(2, 2, 2)` parses one token into x, the
conversion failure on `x` stores zero into y, z keeps its previous
value, and the stream is left failed. -/
theorem vector3d_partial_read_witness :
    readScalar finParse ['1', ' ', 'x'] = ReadResult.ok 1 [' ', 'x'] ∧
    readScalar finParse [' ', 'x'] = ReadResult.convFail ∧
    operatorIn finParse ['1', ' ', 'x'] (⟨2, 2, 2⟩ : Vector3D (Fin 3)) =
      (([' ', 'x'], true), ⟨1, 0, 2⟩) :=
  ⟨by decide, by decide,
    (vector3d_partial_read finParse ['1', ' ', 'x'] ⟨2, 2, 2⟩).2.2.2.1
      1 [' ', 'x'] (by decide) (by decide)⟩
